import Mathlib

set_option autoImplicit false

/-!
Verification of the STUN server core in `src/udp_server.rs` and the process
entry point in `src/main.rs` of the `rust-stun` repository.

Bytes are modelled as `Nat` (the Rust code works on `u8`/`u16`/`u32`; all
arithmetic appearing in the source stays in range, and byte extraction is
written with explicit `/` and `% 256` mirroring `to_be_bytes`).  Byte strings
are `List Nat`.  `anyhow::Result` is modelled as `Except String`.
-/

/-- The STUN magic cookie constant `MAGIC_COOKIE: u32 = 0x2112A442`. -/
def MAGIC_COOKIE : Nat := 0x2112A442

/-- `u16::to_be_bytes`: the two big-endian bytes of a 16-bit value (each
byte extraction truncates with `% 256`, as the `as u8` casts do). -/
def be16 (v : Nat) : List Nat := [v / 256 % 256, v % 256]

/-- `u32::to_be_bytes`: the four big-endian bytes of a 32-bit value. -/
def be32 (v : Nat) : List Nat :=
  [v / 16777216 % 256, v / 65536 % 256, v / 256 % 256, v % 256]

/-- `u16::from_be_bytes` / `u32::from_be_bytes`: read a big-endian byte
string back into a number. -/
def beBytesToNat (bs : List Nat) : Nat := bs.foldl (fun acc b => acc * 256 + b) 0

/-- `util::vec_to_array` (its source file is not under `src/`).
Modelled from the spec: the address is the 32-bit value "big-endian, from
four dot-separated octets", so the 4-element octet vector converts
positionally into the 4-byte array. -/
def vec_to_array (v : List Nat) : List Nat :=
  [v.getD 0 0, v.getD 1 0, v.getD 2 0, v.getD 3 0]

/-- Embedding of `create_xor_mapped_address_and_port` (udp_server.rs:9-45).
The source receives the peer `SocketAddr`, renders it as `"a.b.c.d:port"`,
splits that string back into the dotted address and the port and re-parses
them; for an IPv4 peer this render/re-parse round trip returns exactly the
peer's four octets and 16-bit port, so the embedding takes `a b c d port_int`
directly. -/
def create_xor_mapped_address_and_port (a b c d port_int : Nat) : List Nat :=
  let fix0 : Nat := 0x0
  let family_ipv4 : Nat := 0x01
  let magic_bytes : List Nat := be32 MAGIC_COOKIE
  let magic_16bits : Nat := beBytesToNat (magic_bytes.take 2)
  let xor_port_u16 : Nat := port_int ^^^ magic_16bits
  let xor_port : List Nat := be16 xor_port_u16
  let address_array : List Nat := vec_to_array [a, b, c, d]
  let address_int : Nat := beBytesToNat address_array
  let xor_address_u32 : Nat := address_int ^^^ MAGIC_COOKIE
  let xor_address : List Nat := be32 xor_address_u32
  [fix0, family_ipv4] ++ xor_port ++ xor_address

/-! ## The STUN message model (udp_server.rs:47-128) -/

/-- `enum StunMessageClass` (udp_server.rs:47-53). -/
inductive StunMessageClass where
  | Request
  | Indication
  | SuccessResponse
  | ErrorResponse
deriving DecidableEq

/-- `enum StunMessageMethod` (udp_server.rs:71-80). -/
inductive StunMessageMethod where
  | Binding
  | Allocate
  | Refresh
  | Send
  | Data
  | CreatePermission
  | ChannelBind
deriving DecidableEq

/-- `StunMessageClass::str_to_class` (udp_server.rs:56-68).  The source
compares the two-character bit string; here a bit character is a `Nat`
(`0`/`1`). -/
def str_to_class (s : List Nat) : Except String StunMessageClass :=
  if s = [0, 0] then .ok .Request
  else if s = [0, 1] then .ok .Indication
  else if s = [1, 0] then .ok .SuccessResponse
  else if s = [1, 1] then .ok .ErrorResponse
  else .error "STUN message class NG"

/-- `StunMessageMethod::int_to_class` (udp_server.rs:82-100). -/
def int_to_class (i : Nat) : Except String StunMessageMethod :=
  if i = 1 then .ok .Binding
  else if i = 3 then .ok .Allocate
  else if i = 4 then .ok .Refresh
  else if i = 6 then .ok .Send
  else if i = 7 then .ok .Data
  else if i = 8 then .ok .CreatePermission
  else if i = 9 then .ok .ChannelBind
  else .error "STUN message class NG"

/-- `struct StunMessageType` (udp_server.rs:103-107).  `class` is a Lean
keyword, so the field is named `msgClass`. -/
structure StunMessageType where
  msgClass : StunMessageClass
  method : StunMessageMethod
deriving DecidableEq

/-- `struct StunMessageHeader` (udp_server.rs:109-115). -/
structure StunMessageHeader where
  message_type : StunMessageType
  message_length : List Nat
  magic_cookie : List Nat
  transaction_id : List Nat
deriving DecidableEq

/-- `struct StunMessageAttribute` (udp_server.rs:117-122). -/
structure StunMessageAttribute where
  attribute_type : List Nat
  length : List Nat
  value : List Nat
deriving DecidableEq

/-- `struct StunMessage` (udp_server.rs:124-128).  `attribute` is a Lean
keyword, so the field is named `attr`. -/
structure StunMessage where
  header : StunMessageHeader
  attr : StunMessageAttribute
deriving DecidableEq

/-- `format!("\x7b:0>8b\x7d", x)`: the eight binary digits of a byte, most
significant first (each digit is `_ % 2`, matching the rendering of a `u8`). -/
def byteToBits (b : Nat) : List Nat :=
  [b / 128 % 2, b / 64 % 2, b / 32 % 2, b / 16 % 2, b / 8 % 2, b / 4 % 2, b / 2 % 2, b % 2]

/-- `u8::from_str_radix(_, 2)` applied to a bit string, as a number: the
digits folded most-significant first. -/
def bitsToNat (bits : List Nat) : Nat := bits.foldl (fun acc b => acc * 2 + b) 0

/-- The concatenated 16-character bit string of the two message-type bytes
(udp_server.rs:135-137). -/
def message_type_bits (b0 b1 : Nat) : List Nat := byteToBits b0 ++ byteToBits b1

/-- The two class characters exactly as `parse` extracts them:
`c0 = message_type.remove(11)` then `c1 = message_type.remove(7)`, assembled
as `format!("\x7b\x7d\x7b\x7d", c0, c1)` (udp_server.rs:139-141). -/
def parsed_class_chars (b0 b1 : Nat) : List Nat :=
  [(message_type_bits b0 b1).getD 11 0, ((message_type_bits b0 b1).eraseIdx 11).getD 7 0]

/-- The method integer `parse` obtains: the 14 remaining characters after the
two removals, read in base 2 (udp_server.rs:144). -/
def parsed_method_value (b0 b1 : Nat) : Nat :=
  bitsToNat (((message_type_bits b0 b1).eraseIdx 11).eraseIdx 7)

/-- The magic cookie's big-endian bytes `MAGIC_COOKIE.to_be_bytes()`. -/
def magicCookieBytes : List Nat := be32 MAGIC_COOKIE

/-- `StunMessage::parse` (udp_server.rs:131-178).  The input is the
1024-byte receive buffer; the `u8::from_str_radix` overflow on a 14-bit
value above 255 is the explicit `255 < mval` failure. -/
def StunMessage.parse (buffer : List Nat) : Except String StunMessage :=
  let header := buffer.take 20
  let attr := buffer.drop 20
  match str_to_class (parsed_class_chars (header.getD 0 0) (header.getD 1 0)) with
  | .error e => .error e
  | .ok cls =>
    let mval := parsed_method_value (header.getD 0 0) (header.getD 1 0)
    if 255 < mval then .error "number too large to fit in target type"
    else
      match int_to_class mval with
      | .error e => .error e
      | .ok mth =>
        let message_length_2_bytes := (header.drop 2).take 2
        let magic_cookie_4_bytes := (header.drop 4).take 4
        if magic_cookie_4_bytes = magicCookieBytes then
          let transaction_id_12_bytes := (header.drop 8).take 12
          .ok
            { header :=
                { message_type := { msgClass := cls, method := mth }
                  message_length := message_length_2_bytes
                  magic_cookie := magic_cookie_4_bytes
                  transaction_id := transaction_id_12_bytes }
              attr :=
                { attribute_type := attr.take 2
                  length := (attr.drop 2).take 2
                  value := attr.drop 4 } }
        else .error "magic cookie NG"

/-- The class bit string used by `build` (udp_server.rs:180-185). -/
def class_str : StunMessageClass → List Nat
  | .Request => [0, 0]
  | .Indication => [0, 1]
  | .SuccessResponse => [1, 0]
  | .ErrorResponse => [1, 1]

/-- The method bit string used by `build` (udp_server.rs:189-197). -/
def method_str : StunMessageMethod → List Nat
  | .Binding => [0, 0, 0, 1]
  | .Allocate => [0, 0, 1, 1]
  | .Refresh => [0, 1, 0, 0]
  | .Send => [0, 1, 1, 0]
  | .Data => [0, 1, 1, 1]
  | .CreatePermission => [1, 0, 0, 0]
  | .ChannelBind => [1, 0, 0, 1]

/-- `StunMessage::build` (udp_server.rs:179-224): serialize the header and
the single attribute.  `c1` is the first character of the class string and
`c0` the second; the type string is
`"0000000" + c1 + "000" + c0 + method`. -/
def StunMessage.build (m : StunMessage) : List Nat :=
  let cls := class_str m.header.message_type.msgClass
  let c1 := cls.take 1
  let c0 := cls.drop 1
  let mth := method_str m.header.message_type.method
  let message_type_str := [0, 0, 0, 0, 0, 0, 0] ++ c1 ++ [0, 0, 0] ++ c0 ++ mth
  let message_type_u16 := bitsToNat message_type_str
  let message_type := be16 message_type_u16
  message_type ++ m.header.message_length ++ m.header.magic_cookie ++
    m.header.transaction_id ++ m.attr.attribute_type ++ m.attr.length ++
    m.attr.value

/-! ## The request handler, listener loop (udp_server.rs:227-274) and
entry point (main.rs) -/

/-- The receive buffer `recv_from` fills: `let mut buffer = [0u8; 1024]` is
zero-initialized, the datagram is written at the front (truncated to 1024
bytes), and the returned size is discarded (udp_server.rs:228-229). -/
def fillBuffer (data : List Nat) : List Nat :=
  data.take 1024 ++ List.replicate (1024 - data.length) 0

/-- `receive_and_send` (udp_server.rs:227-267) for one datagram `data`
arriving from the IPv4 peer `a.b.c.d:p`.  The result is `.error` when a `?`
propagates, `.ok (some bytes)` when a response datagram is sent to the peer,
and `.ok none` when the function returns without sending. -/
def receive_and_send (data : List Nat) (a b c d p : Nat) :
    Except String (Option (List Nat)) :=
  let buffer := fillBuffer data
  match StunMessage.parse buffer with
  | .error e => .error e
  | .ok requested_message =>
    let xor_mapped_address := create_xor_mapped_address_and_port a b c d p
    match requested_message.header.message_type.msgClass,
        requested_message.header.message_type.method with
    | .Request, .Binding =>
      let response_header : StunMessageHeader :=
        { message_type := { msgClass := .SuccessResponse, method := .Binding }
          message_length := [0, 12]
          magic_cookie := be32 MAGIC_COOKIE
          transaction_id := requested_message.header.transaction_id }
      let response_attribute : StunMessageAttribute :=
        { attribute_type := be16 0x0020
          length := be16 8
          value := xor_mapped_address }
      let response_message : StunMessage :=
        { header := response_header, attr := response_attribute }
      .ok (some (StunMessage.build response_message))
    | _, _ => .ok none

/-- The response datagram the server sends for one received datagram:
`none` when nothing is sent (decode failure or non-Binding-Request). -/
def sent_datagram (data : List Nat) (a b c d p : Nat) : Option (List Nat) :=
  match receive_and_send data a b c d p with
  | .ok r => r
  | .error _ => none

/-- One incoming datagram together with its IPv4 source address. -/
structure Datagram where
  data : List Nat
  srcA : Nat
  srcB : Nat
  srcC : Nat
  srcD : Nat
  srcPort : Nat

/-- One iteration of the `loop` in `serve` (udp_server.rs:269-274): the
`Result` of `receive_and_send` is consumed by
`.map_err(|e| println!("{:#?}", e))` and discarded, so an error only
logs and the loop continues. -/
def serve_step (dg : Datagram) : Option (List Nat) :=
  match receive_and_send dg.data dg.srcA dg.srcB dg.srcC dg.srcD dg.srcPort with
  | .ok r => r
  | .error _ => none

/-- The listener loop over a sequence of incoming datagrams: the responses
(or non-responses) produced, one entry per datagram. -/
def serveTrace : List Datagram → List (Option (List Nat))
  | [] => []
  | dg :: rest => serve_step dg :: serveTrace rest

/-- Outcome of the process entry point.  `exitWithError c` models writing a
diagnostic to the error stream and calling `std::process::exit(c)` (or, for
the role dispatch, `eprintln!` followed by `exit(1)`). -/
inductive MainOutcome where
  | exitWithError : Nat → MainOutcome
  | runServer : String → String → MainOutcome
  | runClient : String → String → MainOutcome
deriving DecidableEq

/-- `main` (main.rs:10-51): `args` includes the program name at index 0; the
argument count must be exactly 4 (program name, protocol, role, address),
then the protocol and role dispatch to the server or client entry. -/
def main_model (args : List String) : MainOutcome :=
  if args.length ≠ 4 then .exitWithError 1
  else
    let protocol := args.getD 1 ""
    let role := args.getD 2 ""
    let address := args.getD 3 ""
    match protocol with
    | "tcp" =>
      match role with
      | "server" => .runServer "tcp" address
      | "client" => .runClient "tcp" address
      | _ => .exitWithError 1
    | "udp" =>
      match role with
      | "server" => .runServer "udp" address
      | "client" => .runClient "udp" address
      | _ => .exitWithError 1
    | _ => .exitWithError 1

/-! ## Concrete messages used by counterexamples and witnesses -/

/-- A well-formed single-attribute message whose class is `Indication`,
whose encoding is exactly 1024 bytes (value of 1000 bytes). -/
def indication_message : StunMessage :=
  { header := { message_type := { msgClass := .Indication, method := .Binding }
                message_length := [0, 0]
                magic_cookie := [0x21, 0x12, 0xA4, 0x42]
                transaction_id := List.replicate 12 0 }
    attr := { attribute_type := [0, 0]
              length := [0, 0]
              value := List.replicate 1000 0 } }

/-- A Binding Request datagram: type bytes `0x00 0x01`, length `0 0`, the
magic cookie, and the 12-byte transaction id `7 7 ... 7`. -/
def binding_request_data : List Nat :=
  [0x00, 0x01, 0, 0, 0x21, 0x12, 0xA4, 0x42] ++ List.replicate 12 7

/-- The message `StunMessage.parse` produces for
`fillBuffer binding_request_data`. -/
def binding_request_message : StunMessage :=
  { header := { message_type := { msgClass := .Request, method := .Binding }
                message_length := [0, 0]
                magic_cookie := [0x21, 0x12, 0xA4, 0x42]
                transaction_id := List.replicate 12 7 }
    attr := { attribute_type := [0, 0]
              length := [0, 0]
              value := List.replicate 1000 0 } }

/-- An Allocate Request datagram: type bytes `0x00 0x03` (class Request,
method Allocate), with the magic cookie in place. -/
def allocate_request_data : List Nat :=
  [0x00, 0x03, 0, 0, 0x21, 0x12, 0xA4, 0x42] ++ List.replicate 12 7

/-- The message `StunMessage.parse` produces for
`fillBuffer allocate_request_data`. -/
def allocate_request_message : StunMessage :=
  { header := { message_type := { msgClass := .Request, method := .Allocate }
                message_length := [0, 0]
                magic_cookie := [0x21, 0x12, 0xA4, 0x42]
                transaction_id := List.replicate 12 7 }
    attr := { attribute_type := [0, 0]
              length := [0, 0]
              value := List.replicate 1000 0 } }

/-! Helper lemmas about the byte codecs. -/

theorem beBytesToNat_two (x y : Nat) : beBytesToNat [x, y] = x * 256 + y := by
  simp [beBytesToNat, List.foldl]

theorem beBytesToNat_four (a b c d : Nat) :
    beBytesToNat [a, b, c, d] = ((a * 256 + b) * 256 + c) * 256 + d := by
  simp [beBytesToNat, List.foldl]

theorem beBytesToNat_be16 (v : Nat) (hv : v < 65536) : beBytesToNat (be16 v) = v := by
  simp only [be16, beBytesToNat_two]
  omega

theorem beBytesToNat_be32 (v : Nat) (hv : v < 4294967296) :
    beBytesToNat (be32 v) = v := by
  simp only [be32, beBytesToNat_four]
  omega

theorem create_xor_mapped_address_eq (a b c d p : Nat) :
    create_xor_mapped_address_and_port a b c d p =
      [0, 1] ++ be16 (p ^^^ 8466) ++
        be32 ((a * 16777216 + b * 65536 + c * 256 + d) ^^^ 554869826) := by
  have h2 : beBytesToNat ((be32 554869826).take 2) = 8466 := by decide
  have h3 : beBytesToNat (vec_to_array [a, b, c, d]) =
      a * 16777216 + b * 65536 + c * 256 + d := by
    simp [vec_to_array, beBytesToNat_four]
    ring
  simp only [create_xor_mapped_address_and_port, MAGIC_COOKIE, h2, h3]

/-- C3: for every IPv4 peer `a.b.c.d` and 16-bit port `p`, the
XOR-MAPPED-ADDRESS builder returns exactly 8 bytes: byte 0 is `0x00`, byte 1
is `0x01`, bytes 2-3 are `p XOR 0x2112` big-endian, and bytes 4-7 are the
big-endian 32-bit address XORed with `0x2112A442`, big-endian. -/
theorem create_xor_mapped_address_bytes (a b c d p : Nat)
    (ha : a < 256) (hb : b < 256) (hc : c < 256) (hd : d < 256) (hp : p < 65536) :
    (create_xor_mapped_address_and_port a b c d p).length = 8 ∧
    (create_xor_mapped_address_and_port a b c d p).getD 0 9 = 0x00 ∧
    (create_xor_mapped_address_and_port a b c d p).getD 1 9 = 0x01 ∧
    (create_xor_mapped_address_and_port a b c d p).getD 2 9 = (p ^^^ 0x2112) / 256 ∧
    (create_xor_mapped_address_and_port a b c d p).getD 3 9 = (p ^^^ 0x2112) % 256 ∧
    (create_xor_mapped_address_and_port a b c d p).getD 4 9 =
      ((a * 16777216 + b * 65536 + c * 256 + d) ^^^ 0x2112A442) / 16777216 ∧
    (create_xor_mapped_address_and_port a b c d p).getD 5 9 =
      ((a * 16777216 + b * 65536 + c * 256 + d) ^^^ 0x2112A442) / 65536 % 256 ∧
    (create_xor_mapped_address_and_port a b c d p).getD 6 9 =
      ((a * 16777216 + b * 65536 + c * 256 + d) ^^^ 0x2112A442) / 256 % 256 ∧
    (create_xor_mapped_address_and_port a b c d p).getD 7 9 =
      ((a * 16777216 + b * 65536 + c * 256 + d) ^^^ 0x2112A442) % 256 := by
  have hxp : p ^^^ 0x2112 < 65536 := by
    have h1 : p < 2 ^ 16 := hp
    have h2 : (0x2112 : Nat) < 2 ^ 16 := by norm_num
    exact Nat.xor_lt_two_pow h1 h2
  have hxa : (a * 16777216 + b * 65536 + c * 256 + d) ^^^ 0x2112A442 < 4294967296 := by
    have h1 : a * 16777216 + b * 65536 + c * 256 + d < 2 ^ 32 := by omega
    have h2 : (0x2112A442 : Nat) < 2 ^ 32 := by norm_num
    exact Nat.xor_lt_two_pow h1 h2
  refine ⟨?_, ?_, ?_, ?_, ?_, ?_, ?_, ?_, ?_⟩ <;>
    rw [create_xor_mapped_address_eq] <;>
    simp only [be16, be32, List.cons_append, List.nil_append, List.getD_cons_zero,
      List.getD_cons_succ, List.length_cons, List.length_nil] <;>
    omega

/-- Witness for `create_xor_mapped_address_bytes` at `203.0.113.5:40000`. -/
theorem create_xor_mapped_address_bytes_witness :
    (create_xor_mapped_address_and_port 203 0 113 5 40000).getD 2 9 =
      (40000 ^^^ 0x2112) / 256 ∧
    (create_xor_mapped_address_and_port 203 0 113 5 40000).getD 7 9 =
      ((203 * 16777216 + 0 * 65536 + 113 * 256 + 5) ^^^ 0x2112A442) % 256 := by
  have h := create_xor_mapped_address_bytes 203 0 113 5 40000
    (by decide) (by decide) (by decide) (by decide) (by decide)
  exact ⟨h.2.2.2.1, h.2.2.2.2.2.2.2.2⟩

/-- C7: the XOR-MAPPED-ADDRESS transformation is self-inverse: XORing the
port field of the builder's output with the top 16 bits of the magic cookie
and the address field with the full cookie recovers the original port and
all four address octets exactly. -/
theorem create_xor_mapped_address_self_inverse (a b c d p : Nat)
    (ha : a < 256) (hb : b < 256) (hc : c < 256) (hd : d < 256) (hp : p < 65536) :
    beBytesToNat (((create_xor_mapped_address_and_port a b c d p).drop 2).take 2)
      ^^^ 0x2112 = p ∧
    beBytesToNat ((create_xor_mapped_address_and_port a b c d p).drop 4)
      ^^^ 0x2112A442 = a * 16777216 + b * 65536 + c * 256 + d ∧
    (beBytesToNat ((create_xor_mapped_address_and_port a b c d p).drop 4)
      ^^^ 0x2112A442) / 16777216 = a ∧
    (beBytesToNat ((create_xor_mapped_address_and_port a b c d p).drop 4)
      ^^^ 0x2112A442) / 65536 % 256 = b ∧
    (beBytesToNat ((create_xor_mapped_address_and_port a b c d p).drop 4)
      ^^^ 0x2112A442) / 256 % 256 = c ∧
    (beBytesToNat ((create_xor_mapped_address_and_port a b c d p).drop 4)
      ^^^ 0x2112A442) % 256 = d := by
  have hxp : p ^^^ 0x2112 < 65536 :=
    Nat.xor_lt_two_pow (x := p) (n := 16) hp (by norm_num)
  have hxa : (a * 16777216 + b * 65536 + c * 256 + d) ^^^ 0x2112A442 < 4294967296 :=
    Nat.xor_lt_two_pow (n := 32) (by omega) (by norm_num)
  have hport : (((create_xor_mapped_address_and_port a b c d p).drop 2).take 2) =
      be16 (p ^^^ 0x2112) := by
    rw [create_xor_mapped_address_eq]
    simp [be16, be32]
  have haddrbytes : ((create_xor_mapped_address_and_port a b c d p).drop 4) =
      be32 ((a * 16777216 + b * 65536 + c * 256 + d) ^^^ 0x2112A442) := by
    rw [create_xor_mapped_address_eq]
    simp [be16, be32]
  rw [hport, haddrbytes, beBytesToNat_be16 _ hxp, beBytesToNat_be32 _ hxa,
    Nat.xor_cancel_right, Nat.xor_cancel_right]
  refine ⟨rfl, rfl, ?_, ?_, ?_, ?_⟩ <;> omega

/-- Witness for `create_xor_mapped_address_self_inverse` at `192.168.0.1:3478`. -/
theorem create_xor_mapped_address_self_inverse_witness :
    beBytesToNat (((create_xor_mapped_address_and_port 192 168 0 1 3478).drop 2).take 2)
      ^^^ 0x2112 = 3478 ∧
    beBytesToNat ((create_xor_mapped_address_and_port 192 168 0 1 3478).drop 4)
      ^^^ 0x2112A442 = 192 * 16777216 + 168 * 65536 + 0 * 256 + 1 := by
  have h := create_xor_mapped_address_self_inverse 192 168 0 1 3478
    (by decide) (by decide) (by decide) (by decide) (by decide)
  exact ⟨h.1, h.2.1⟩


/-! ## Helper lemmas about `parse`, the buffer and the entry point -/

theorem fillBuffer_length (data : List Nat) : (fillBuffer data).length = 1024 := by
  simp only [fillBuffer, List.length_append, List.length_take, List.length_replicate]
  omega

theorem parse_ok_value (buffer : List Nat) (m : StunMessage)
    (h : StunMessage.parse buffer = .ok m) : m.attr.value = buffer.drop 24 := by
  simp only [StunMessage.parse] at h
  split at h
  · exact absurd h (by simp)
  · split at h
    · exact absurd h (by simp)
    · split at h
      · exact absurd h (by simp)
      · split at h
        · cases h
          simp [List.drop_drop]
        · exact absurd h (by simp)

theorem parse_ok_transaction_id (buffer : List Nat) (m : StunMessage)
    (h : StunMessage.parse buffer = .ok m) :
    m.header.transaction_id = (buffer.drop 8).take 12 := by
  simp only [StunMessage.parse] at h
  split at h
  · exact absurd h (by simp)
  · split at h
    · exact absurd h (by simp)
    · split at h
      · exact absurd h (by simp)
      · split at h
        · cases h
          show ((buffer.take 20).drop 8).take 12 = (buffer.drop 8).take 12
          rw [List.take_drop, List.take_drop, List.take_take]
          norm_num
        · exact absurd h (by simp)

theorem parse_error_of_bad_cookie (buffer : List Nat)
    (h : ((buffer.take 20).drop 4).take 4 ≠ magicCookieBytes) :
    ∃ e, StunMessage.parse buffer = .error e := by
  simp only [StunMessage.parse]
  repeat' split
  all_goals first
    | exact ⟨_, rfl⟩
    | (rename_i hcookie; exact absurd hcookie h)

theorem int_to_class_error (i : Nat) (h : i ∉ ([1, 3, 4, 6, 7, 8, 9] : List Nat)) :
    int_to_class i = .error "STUN message class NG" := by
  simp only [List.mem_cons, List.not_mem_nil, or_false, not_or] at h
  obtain ⟨h1, h3, h4, h6, h7, h8, h9⟩ := h
  simp only [int_to_class, if_neg h1, if_neg h3, if_neg h4, if_neg h6, if_neg h7,
    if_neg h8, if_neg h9]

/-! ## The claims -/

set_option maxRecDepth 10000 in
/-- C1: the spec asserts `decode(encode(m)) == m` for every well-formed
single-attribute message; `build` places the class bits per RFC 5389 (C1 at
string index 7, C0 at index 11), while `parse` reassembles the two removed
characters in the reverse order, so re-decoding an encoded `Indication`
message yields class `SuccessResponse` (with every other field preserved).
The encoder and decoder of the same file contradict each other, and the
decoder's class-bit order contradicts the lookup table it feeds. -/
theorem parse_build_flips_indication_class :
    indication_message.header.message_type.msgClass = StunMessageClass.Indication ∧
    (StunMessage.build indication_message).length = 1024 ∧
    (StunMessage.parse (StunMessage.build indication_message)).map
        (fun m => m.header.message_type.msgClass) =
      .ok StunMessageClass.SuccessResponse ∧
    (StunMessage.parse (StunMessage.build indication_message)).map
        (fun m => m.header.message_type.method) =
      .ok StunMessageMethod.Binding ∧
    (StunMessage.parse (StunMessage.build indication_message)).map
        (fun m => m.header.transaction_id) =
      .ok indication_message.header.transaction_id ∧
    (StunMessage.parse (StunMessage.build indication_message)).map
        (fun m => m.attr.value) =
      .ok indication_message.attr.value :=
  ⟨rfl, rfl, rfl, rfl, rfl, rfl⟩

/-- C2: for every decoded datagram whose class is `Request` and whose method
is `Binding`, arriving from the IPv4 peer `a.b.c.d:p`, the server sends
exactly one response datagram (the model sends at most one per datagram, and
here it is `some`): its class is `SuccessResponse`, its method `Binding`,
its transaction id the request's transaction id byte-for-byte (bytes 8-19 of
the receive buffer), its magic cookie `0x2112A442`, its message_length 12,
and its single attribute has type `0x0020`, length 8, and the 8-byte
XOR-MAPPED-ADDRESS value derived from the peer. -/
theorem binding_request_single_response (data : List Nat) (a b c d p : Nat)
    (m : StunMessage)
    (hparse : StunMessage.parse (fillBuffer data) = .ok m)
    (hclass : m.header.message_type.msgClass = .Request)
    (hmethod : m.header.message_type.method = .Binding) :
    ∃ resp : StunMessage,
      sent_datagram data a b c d p = some (StunMessage.build resp) ∧
      resp.header.message_type.msgClass = .SuccessResponse ∧
      resp.header.message_type.method = .Binding ∧
      resp.header.transaction_id = m.header.transaction_id ∧
      resp.header.transaction_id = ((fillBuffer data).drop 8).take 12 ∧
      resp.header.magic_cookie = [0x21, 0x12, 0xA4, 0x42] ∧
      resp.header.message_length = [0, 12] ∧
      resp.attr.attribute_type = [0x00, 0x20] ∧
      resp.attr.length = [0x00, 0x08] ∧
      resp.attr.value = create_xor_mapped_address_and_port a b c d p := by
  refine ⟨{ header := { message_type := { msgClass := .SuccessResponse, method := .Binding }
                        message_length := [0, 12]
                        magic_cookie := be32 MAGIC_COOKIE
                        transaction_id := m.header.transaction_id }
            attr := { attribute_type := be16 0x0020
                      length := be16 8
                      value := create_xor_mapped_address_and_port a b c d p } },
    ?_, rfl, rfl, rfl, parse_ok_transaction_id (fillBuffer data) m hparse,
    (by decide : be32 MAGIC_COOKIE = [0x21, 0x12, 0xA4, 0x42]), rfl,
    (by decide : be16 0x0020 = [0x00, 0x20]),
    (by decide : be16 8 = [0x00, 0x08]), rfl⟩
  simp only [sent_datagram, receive_and_send, hparse, hclass, hmethod]

set_option maxRecDepth 10000 in
/-- Witness for `binding_request_single_response`: the concrete Binding
Request from `203.0.113.5:40000`. -/
theorem binding_request_single_response_witness :
    StunMessage.parse (fillBuffer binding_request_data) = .ok binding_request_message ∧
    binding_request_message.header.message_type.msgClass = .Request ∧
    binding_request_message.header.message_type.method = .Binding ∧
    ∃ resp : StunMessage,
      sent_datagram binding_request_data 203 0 113 5 40000 =
        some (StunMessage.build resp) ∧
      resp.header.message_type.msgClass = .SuccessResponse ∧
      resp.header.message_type.method = .Binding ∧
      resp.header.transaction_id = binding_request_message.header.transaction_id ∧
      resp.header.transaction_id = ((fillBuffer binding_request_data).drop 8).take 12 ∧
      resp.header.magic_cookie = [0x21, 0x12, 0xA4, 0x42] ∧
      resp.header.message_length = [0, 12] ∧
      resp.attr.attribute_type = [0x00, 0x20] ∧
      resp.attr.length = [0x00, 0x08] ∧
      resp.attr.value = create_xor_mapped_address_and_port 203 0 113 5 40000 := by
  have hparse : StunMessage.parse (fillBuffer binding_request_data) =
      .ok binding_request_message := by rfl
  exact ⟨hparse, rfl, rfl,
    binding_request_single_response binding_request_data 203 0 113 5 40000
      binding_request_message hparse rfl rfl⟩

/-- C4: for every received datagram whose magic-cookie bytes (offsets 4-7 of
the receive buffer) differ from `21 12 A4 42`, decoding returns an error and
the server sends no response for that datagram. -/
theorem bad_magic_cookie_no_response (data : List Nat) (a b c d p : Nat)
    (h : ((fillBuffer data).drop 4).take 4 ≠ [0x21, 0x12, 0xA4, 0x42]) :
    (∃ e, StunMessage.parse (fillBuffer data) = .error e) ∧
    sent_datagram data a b c d p = none := by
  have hmb : magicCookieBytes = [0x21, 0x12, 0xA4, 0x42] := by decide
  have hslice : (((fillBuffer data).take 20).drop 4).take 4 =
      ((fillBuffer data).drop 4).take 4 := by
    rw [List.take_drop, List.take_drop, List.take_take]
    norm_num
  obtain ⟨e, he⟩ := parse_error_of_bad_cookie (fillBuffer data) (by rw [hslice, hmb]; exact h)
  refine ⟨⟨e, he⟩, ?_⟩
  simp only [sent_datagram, receive_and_send, he]

/-- Witness for `bad_magic_cookie_no_response`: an all-zero datagram (the
buffer's cookie bytes are `00 00 00 00`). -/
theorem bad_magic_cookie_no_response_witness :
    ((fillBuffer []).drop 4).take 4 ≠ [0x21, 0x12, 0xA4, 0x42] ∧
    (∃ e, StunMessage.parse (fillBuffer []) = .error e) ∧
    sent_datagram [] 0 0 0 0 0 = none :=
  ⟨by decide, bad_magic_cookie_no_response [] 0 0 0 0 0 (by decide)⟩

/-- C5: for every decoded datagram that is not a Binding Request — class
`Request` with a non-`Binding` method, or any non-`Request` class — the
server sends no response datagram. -/
theorem non_binding_request_no_response (data : List Nat) (a b c d p : Nat)
    (m : StunMessage)
    (hparse : StunMessage.parse (fillBuffer data) = .ok m)
    (h : ¬(m.header.message_type.msgClass = .Request ∧
        m.header.message_type.method = .Binding)) :
    sent_datagram data a b c d p = none := by
  simp only [sent_datagram, receive_and_send, hparse]
  cases hc : m.header.message_type.msgClass <;>
    cases hm : m.header.message_type.method <;> simp_all

set_option maxRecDepth 10000 in
/-- Witness for `non_binding_request_no_response`: a concrete Allocate
Request (class `Request`, method `Allocate`) gets no response. -/
theorem non_binding_request_no_response_witness :
    StunMessage.parse (fillBuffer allocate_request_data) = .ok allocate_request_message ∧
    ¬(allocate_request_message.header.message_type.msgClass = .Request ∧
        allocate_request_message.header.message_type.method = .Binding) ∧
    sent_datagram allocate_request_data 203 0 113 5 40000 = none := by
  have hparse : StunMessage.parse (fillBuffer allocate_request_data) =
      .ok allocate_request_message := by rfl
  exact ⟨hparse, by decide,
    non_binding_request_no_response allocate_request_data 203 0 113 5 40000
      allocate_request_message hparse (by decide)⟩

/-- C6: for every 16-bit type field (bytes `b0 b1`) whose method bits read as
an unsigned integer outside `{1, 3, 4, 6, 7, 8, 9}`, decoding fails with an
error (a value above 255 already fails the `u8` parse); no fallback method is
ever substituted, since the only non-error paths of `int_to_class` are the
seven listed codes. -/
theorem unknown_method_decode_fails (b0 b1 : Nat) (rest : List Nat)
    (h : parsed_method_value b0 b1 ∉ ([1, 3, 4, 6, 7, 8, 9] : List Nat)) :
    ∃ e, StunMessage.parse (b0 :: b1 :: rest) = .error e := by
  have h0 : ((b0 :: b1 :: rest).take 20).getD 0 0 = b0 := rfl
  have h1 : ((b0 :: b1 :: rest).take 20).getD 1 0 = b1 := rfl
  simp only [StunMessage.parse, h0, h1]
  split
  · exact ⟨_, rfl⟩
  · by_cases hb : 255 < parsed_method_value b0 b1
    · rw [if_pos hb]
      exact ⟨_, rfl⟩
    · rw [if_neg hb, int_to_class_error _ h]
      exact ⟨_, rfl⟩

/-- Witness for `unknown_method_decode_fails`: type bytes `0x00 0x02` read as
method 2, which is unrecognized. -/
theorem unknown_method_decode_fails_witness :
    parsed_method_value 0 2 ∉ ([1, 3, 4, 6, 7, 8, 9] : List Nat) ∧
    ∃ e, StunMessage.parse (0 :: 2 :: []) = .error e :=
  ⟨by decide, unknown_method_decode_fails 0 2 [] (by decide)⟩

/-- C8: no per-datagram failure terminates the listener loop: `serve`
discards each iteration's `Result` after logging, so the trace over any
datagram sequence handles every datagram — after any prefix (errors
included) the loop processes the next datagram and produces exactly one
outcome per datagram. -/
theorem serve_loop_processes_every_datagram :
    ∀ (ds : List Datagram) (dg : Datagram),
      serveTrace (ds ++ [dg]) = serveTrace ds ++ [serve_step dg] ∧
      (serveTrace ds).length = ds.length := by
  intro ds dg
  constructor
  · induction ds with
    | nil => rfl
    | cons hd tl ih => simp [serveTrace, ih]
  · induction ds with
    | nil => rfl
    | cons hd tl ih => simp only [serveTrace, List.length_cons, ih]

/-- C9: every successfully decoded message's attribute value is exactly the
1000 bytes at offsets 24-1023 of the fixed 1024-byte receive buffer (zero
padded past the datagram's discarded size); neither the header's
message_length field nor the attribute's declared length field affects it. -/
theorem parse_value_is_fixed_buffer_tail (data : List Nat) (m : StunMessage)
    (h : StunMessage.parse (fillBuffer data) = .ok m) :
    m.attr.value = (fillBuffer data).drop 24 ∧ m.attr.value.length = 1000 := by
  have hv := parse_ok_value _ _ h
  refine ⟨hv, ?_⟩
  rw [hv, List.length_drop, fillBuffer_length]

set_option maxRecDepth 10000 in
/-- Witness for `parse_value_is_fixed_buffer_tail` at the concrete Binding
Request datagram (20 bytes received, value still 1000 bytes). -/
theorem parse_value_is_fixed_buffer_tail_witness :
    StunMessage.parse (fillBuffer binding_request_data) = .ok binding_request_message ∧
    binding_request_message.attr.value = (fillBuffer binding_request_data).drop 24 ∧
    binding_request_message.attr.value.length = 1000 := by
  have h : StunMessage.parse (fillBuffer binding_request_data) =
      .ok binding_request_message := by rfl
  exact ⟨h, parse_value_is_fixed_buffer_tail binding_request_data binding_request_message h⟩

/-- C10 counterexample: the claim says the process takes exactly one
`address:port` argument; in the code `main` demands `args.len() == 4`
(program name, protocol, role, address), so the single-argument invocation
the claim mandates is rejected with a diagnostic and exit code 1, while the
three-argument invocation runs the UDP server. -/
theorem single_address_argument_rejected :
    main_model ["rust-stun", "0.0.0.0:3478"] = .exitWithError 1 ∧
    main_model ["rust-stun", "udp", "server", "0.0.0.0:3478"] =
      .runServer "udp" "0.0.0.0:3478" := by
  constructor
  · rfl
  · rfl

/-- C10 (amended): process invocation takes exactly three arguments
(protocol, role, `address:port`); for every invocation whose argument count
differs, `main` writes a diagnostic to the error stream and exits with
code 1. -/
theorem wrong_argument_count_exits (args : List String) (h : args.length ≠ 4) :
    main_model args = .exitWithError 1 := by
  simp only [main_model, if_pos h]

/-- Witness for `wrong_argument_count_exits`: the single-argument
invocation. -/
theorem wrong_argument_count_exits_witness :
    (["rust-stun", "127.0.0.1:3478"] : List String).length ≠ 4 ∧
    main_model ["rust-stun", "127.0.0.1:3478"] = .exitWithError 1 :=
  ⟨by decide, wrong_argument_count_exits ["rust-stun", "127.0.0.1:3478"] (by decide)⟩
